import Mathlib

/-!
Verification of the Verba `Llama3Generator` component
(src/goldenverba/components/generation/Llama3Generator.py).

Shallow embedding conventions:
* Python strings are Lean `String`; `" ".join(xs)` is `String.intercalate " " xs`.
* `os.environ.get(key, "")` is modelled by an `Env` record holding the two keys
  the code reads; an absent key is the empty string, exactly as the default
  argument makes it in the source.
* The conversation history entries are duck-typed objects offering a `type`
  field (the role) and a `content` field, as accessed on line 144 of the
  source (`message.type`, `message.content`).
* The backend (tokenizer/model/pipeline construction and the `pipe(...)`
  invocation, all external `transformers`/`torch` library calls) is a
  parameter with two fallible operations; an exception is a `BackendError`
  value carried by `Except`.
* The asynchronous generator is modelled by the finite trace of steps it
  performs: each `yield` becomes a `Step.yielded` entry, and the two points
  where the external backend is entered are marked `Step.constructBackend`
  (lines 50-74: BitsAndBytesConfig / AutoTokenizer / AutoModelForCausalLM /
  pipeline, terminators) and `Step.invokeBackend` (line 86: `pipe(...)`).
  The run ends either normally (`Outcome.completed`) or by an exception
  propagating to the caller (`Outcome.raised e`).
-/

/-- A generation event, the dict `\x7b"message": ..., "finish_reason": ...\x7d`
yielded by `generate_stream`. -/
structure GenerationEvent where
  message : String
  finish_reason : String
deriving DecidableEq, Repr

/-- A prior-conversation entry as the source accesses it: a `type` field
holding the role and a `content` field (line 144). -/
structure ConvMessage where
  type : String
  content : String
deriving DecidableEq, Repr

/-- A prompt message built by `prepare_messages`: a dict with `role` and
`content` keys. -/
structure PromptMessage where
  role : String
  content : String
deriving DecidableEq, Repr

/-- The static capability metadata set in `Llama3Generator.__init__`
(lines 15-21), plus the `system_message` field. -/
structure Llama3Generator where
  name : String
  description : String
  requires_env : List String
  streamable : Bool
  context_window : Nat
  system_message : String
deriving DecidableEq, Repr

/-- Modelled from the spec: the `Generator` base class
(goldenverba.components.interfaces, not under src/) initialises
`system_message`; the spec treats it as the `systemPreamble` parameter of
the PromptAssembler, so we take its value as a construction argument.
The five explicit fields are the assignments of `__init__` (lines 17-21). -/
def Llama3Generator.init (system_message : String) : Llama3Generator :=
  { name := "Llama3"
  , description := "Generator using a local running Llama3 Model from Hugging Face"
  , requires_env := ["HUGGINGFACE_TOKEN", "LLAMA3_MODEL_ID"]
  , streamable := true
  , context_window := 8000
  , system_message := system_message }

/-- Stateful embedding of `prepare_messages` (lines 122-156). Python passes
`self` and the argument lists by reference, so the embedding threads them and
returns their final values beside the result. The body performs no assignment
to `self` or to the arguments: the only mutation is `append` on the locally
created `messages` list, rendered here as `++` on the local binding. -/
def Llama3Generator.prepare_messagesSt (g : Llama3Generator)
    (queries context : List String) (conversation : List ConvMessage) :
    List PromptMessage × Llama3Generator × List String × List String × List ConvMessage :=
  -- messages = [ \x7b"role": "system", "content": self.system_message\x7d ]
  let messages : List PromptMessage := [{ role := "system", content := g.system_message }]
  -- for message in conversation: messages.append(\x7b"role": message.type, "content": message.content\x7d)
  let messages := messages ++ conversation.map (fun m => { role := m.type, content := m.content })
  -- query = " ".join(queries); user_context = " ".join(context)
  let query := String.intercalate " " queries
  let user_context := String.intercalate " " context
  -- messages.append(\x7b"role": "user", "content": f"With this provided context: ..."\x7d)
  let messages := messages ++
    [{ role := "user"
     , content := "With this provided context: \x27" ++ user_context ++
         "\x27 Please answer this query: \x27" ++ query ++ "\x27" }]
  (messages, g, queries, context, conversation)

/-- The returned message list of `prepare_messages`. -/
def Llama3Generator.prepare_messages (g : Llama3Generator)
    (queries context : List String) (conversation : List ConvMessage) :
    List PromptMessage :=
  (g.prepare_messagesSt queries context conversation).1

/-- The content of the final user message, as built on line 152 of the
source. -/
def userPromptContent (queries context : List String) : String :=
  "With this provided context: \x27" ++ String.intercalate " " context ++
    "\x27 Please answer this query: \x27" ++ String.intercalate " " queries ++ "\x27"

/-- Structural form of the assembled message list: system preamble, the
mapped conversation, then the single templated user message. -/
theorem prepare_messages_eq (g : Llama3Generator) (queries context : List String)
    (conversation : List ConvMessage) :
    g.prepare_messages queries context conversation =
      ({ role := "system", content := g.system_message } ::
        conversation.map (fun m => { role := m.type, content := m.content })) ++
      [{ role := "user", content := userPromptContent queries context }] := by
  simp [Llama3Generator.prepare_messages, Llama3Generator.prepare_messagesSt,
    userPromptContent]

/-- Claim C3: for every queries, context and conversation, `prepare_messages`
returns a sequence of length exactly `2 + |conversation|` whose first element
has role "system" and whose last element has role "user". -/
theorem claim_C3_shape (g : Llama3Generator) (queries context : List String)
    (conversation : List ConvMessage) :
    (g.prepare_messages queries context conversation).length = 2 + conversation.length ∧
    (g.prepare_messages queries context conversation).head?.map PromptMessage.role = some "system" ∧
    (g.prepare_messages queries context conversation).getLast?.map PromptMessage.role = some "user" := by
  rw [prepare_messages_eq]
  refine ⟨?_, ?_, ?_⟩
  · simp; omega
  · simp
  · rw [List.getLast?_concat]
    simp

/-- Claim C4: the middle slice of the assembled sequence (elements 1 through
`|conversation|`) is the input conversation verbatim and in order, each entry
emitted with its role (`type`) and `content` fields passed through unchanged. -/
theorem claim_C4_middle_slice (g : Llama3Generator) (queries context : List String)
    (conversation : List ConvMessage) :
    ((g.prepare_messages queries context conversation).drop 1).take conversation.length =
      conversation.map (fun m => { role := m.type, content := m.content }) := by
  rw [prepare_messages_eq, List.cons_append, List.drop_one, List.tail_cons,
    ← List.length_map conversation (fun m => ({ role := m.type, content := m.content } : PromptMessage))]
  exact List.take_left _ _

/-- Claim C5: for every queries and context (empty sequences joining to the
empty string), the content of the final assembled message is exactly the
fixed template around the space-joined context and queries. -/
theorem claim_C5_template (g : Llama3Generator) (queries context : List String)
    (conversation : List ConvMessage) :
    (g.prepare_messages queries context conversation).getLast?.map PromptMessage.content =
      some ("With this provided context: \x27" ++ String.intercalate " " context ++
        "\x27 Please answer this query: \x27" ++ String.intercalate " " queries ++ "\x27") := by
  rw [prepare_messages_eq, List.getLast?_concat]
  simp [userPromptContent]

/-- The process configuration restricted to the two keys the source reads;
`os.environ.get(key, "")` maps an absent key to `""`, so absent and empty
coincide, exactly as in the source (lines 35, 41). -/
structure Env where
  huggingfaceToken : String
  llama3ModelId : String
deriving DecidableEq, Repr

/-- A Python exception raised by the external backend libraries, carried as
an `Except` error value. -/
structure BackendError where
  details : String
deriving DecidableEq, Repr

/-- The external backend: `construct model_name access_token` stands for the
tokenizer/model/pipeline loading of lines 50-74, `invoke messages` for the
`pipe(...)` call of lines 86-94 returning the extracted assistant response.
Both are external library calls and may raise. -/
structure Backend where
  construct : String → String → Except BackendError Unit
  invoke : List PromptMessage → Except BackendError String

/-- One observable step of a `generate_stream` run: a yielded event, or
entering one of the two external backend phases. -/
inductive Step where
  | yielded (e : GenerationEvent)
  | constructBackend
  | invokeBackend
deriving DecidableEq, Repr

/-- How a `generate_stream` run ends: the generator is exhausted normally,
or an exception propagates to the caller. -/
inductive Outcome where
  | completed
  | raised (e : BackendError)
deriving DecidableEq, Repr

/-- The event yielded on line 37 when the Hugging Face token is missing. -/
def missingTokenEvent : GenerationEvent :=
  { message := "Missing Hugging Face Token", finish_reason := "stop" }

/-- The event yielded on line 43 when the Llama3 model id is missing. -/
def missingModelEvent : GenerationEvent :=
  { message := "Missing Llama3 Model", finish_reason := "stop" }

/-- Trace semantics of `generate_stream` (lines 23-120). The two config
checks yield their error events without returning; backend construction
(outside any try block) follows unconditionally; `prepare_messages` is
called next; the `pipe(...)` invocation sits in a try whose only handler is
`except Exception: raise`, so every exception propagates unchanged. On
success the single answer is yielded with an empty finish_reason and the
generator ends. -/
def generate_stream (env : Env) (backend : Backend) (g : Llama3Generator)
    (queries context : List String) (conversation : List ConvMessage) :
    List Step × Outcome :=
  -- access_token = os.environ.get("HUGGINGFACE_TOKEN", ""); if "": yield (no return)
  let s1 : List Step := if env.huggingfaceToken = "" then [Step.yielded missingTokenEvent] else []
  -- model_name = os.environ.get("LLAMA3_MODEL_ID", ""); if "": yield (no return)
  let s2 : List Step := if env.llama3ModelId = "" then [Step.yielded missingModelEvent] else []
  match backend.construct env.llama3ModelId env.huggingfaceToken with
  | Except.error e => (s1 ++ s2 ++ [Step.constructBackend], Outcome.raised e)
  | Except.ok _ =>
    let messages := g.prepare_messages queries context conversation
    match backend.invoke messages with
    | Except.error e =>
        (s1 ++ s2 ++ [Step.constructBackend, Step.invokeBackend], Outcome.raised e)
    | Except.ok answer =>
        (s1 ++ s2 ++ [Step.constructBackend, Step.invokeBackend,
          Step.yielded { message := answer, finish_reason := "" }], Outcome.completed)

/-- The events a trace yields, in order. -/
def yieldedEvents : List Step → List GenerationEvent
  | [] => []
  | Step.yielded e :: rest => e :: yieldedEvents rest
  | Step.constructBackend :: rest => yieldedEvents rest
  | Step.invokeBackend :: rest => yieldedEvents rest

/-- The terminal events of a trace: those with finish_reason "stop". -/
def stopEvents (steps : List Step) : List GenerationEvent :=
  (yieldedEvents steps).filter (fun ev => ev.finish_reason == "stop")

/-- The events produced by the two configuration checks alone. -/
def configErrorEvents (env : Env) : List GenerationEvent :=
  (if env.huggingfaceToken = "" then [missingTokenEvent] else []) ++
    (if env.llama3ModelId = "" then [missingModelEvent] else [])

/-- A backend whose construction and invocation both succeed, the invocation
returning the answer "Paris". -/
def okBackend : Backend :=
  { construct := fun _ _ => Except.ok ()
  , invoke := fun _ => Except.ok "Paris" }

/-- A backend whose construction succeeds and whose invocation raises. -/
def failingBackend : Backend :=
  { construct := fun _ _ => Except.ok ()
  , invoke := fun _ => Except.error { details := "inference failure" } }

/-- Yielded events distribute over trace concatenation. -/
theorem yieldedEvents_append (l₁ l₂ : List Step) :
    yieldedEvents (l₁ ++ l₂) = yieldedEvents l₁ ++ yieldedEvents l₂ := by
  induction l₁ with
  | nil => rfl
  | cons s rest ih => cases s <;> simp [yieldedEvents, ih]

/-- Every run first yields the configuration-error events, then enters
backend construction; everything the trace yields after that point has an
empty finish_reason. -/
theorem generate_stream_shape (env : Env) (backend : Backend) (g : Llama3Generator)
    (queries context : List String) (conversation : List ConvMessage) :
    ∃ tail, (generate_stream env backend g queries context conversation).1 =
      (if env.huggingfaceToken = "" then [Step.yielded missingTokenEvent] else []) ++
        ((if env.llama3ModelId = "" then [Step.yielded missingModelEvent] else []) ++
          Step.constructBackend :: tail) ∧
      ∀ ev ∈ yieldedEvents tail, ev.finish_reason = "" := by
  rcases hc : backend.construct env.llama3ModelId env.huggingfaceToken with e | u
  · refine ⟨[], ?_, by simp [yieldedEvents]⟩
    simp [generate_stream, hc]
  · rcases hi : backend.invoke (g.prepare_messages queries context conversation) with e | answer
    · refine ⟨[Step.invokeBackend], ?_, by simp [yieldedEvents]⟩
      simp [generate_stream, hc, hi]
    · refine ⟨[Step.invokeBackend, Step.yielded { message := answer, finish_reason := "" }],
        ?_, by simp [yieldedEvents]⟩
      simp [generate_stream, hc, hi]

/-- Claim C2: after emitting a terminal configuration-error event for a
missing required value, `generate_stream` does not halt; the trace goes on
to attempt backend construction. -/
theorem claim_C2_continues (env : Env) (backend : Backend) (g : Llama3Generator)
    (queries context : List String) (conversation : List ConvMessage)
    (h : env.huggingfaceToken = "" ∨ env.llama3ModelId = "") :
    ∃ before after, (generate_stream env backend g queries context conversation).1 =
        before ++ Step.constructBackend :: after ∧
      ∃ ev, Step.yielded ev ∈ before ∧ ev.finish_reason = "stop" := by
  obtain ⟨tail, htr, -⟩ := generate_stream_shape env backend g queries context conversation
  refine ⟨(if env.huggingfaceToken = "" then [Step.yielded missingTokenEvent] else []) ++
      (if env.llama3ModelId = "" then [Step.yielded missingModelEvent] else []), tail, ?_, ?_⟩
  · rw [htr]; simp
  · rcases h with h | h
    · exact ⟨missingTokenEvent, by simp [h], rfl⟩
    · exact ⟨missingModelEvent, by simp [h], rfl⟩

/-- Claim C2 witness at a concrete missing-token configuration. -/
theorem claim_C2_continues_witness :
    ∃ before after, (generate_stream { huggingfaceToken := "", llama3ModelId := "m" }
        okBackend (Llama3Generator.init "sys") ["q"] ["c"] []).1 =
        before ++ Step.constructBackend :: after ∧
      ∃ ev, Step.yielded ev ∈ before ∧ ev.finish_reason = "stop" :=
  claim_C2_continues _ okBackend _ _ _ _ (Or.inl rfl)

/-- Claim C10: with both required keys absent or empty, the run yields the
missing-credential event and then the missing-model event, both terminal
("stop"), before backend construction is attempted. -/
theorem claim_C10_both_missing (env : Env) (backend : Backend) (g : Llama3Generator)
    (queries context : List String) (conversation : List ConvMessage)
    (htok : env.huggingfaceToken = "") (hmod : env.llama3ModelId = "") :
    ∃ after, (generate_stream env backend g queries context conversation).1 =
        Step.yielded missingTokenEvent :: Step.yielded missingModelEvent ::
          Step.constructBackend :: after ∧
      missingTokenEvent.finish_reason = "stop" ∧
      missingModelEvent.finish_reason = "stop" := by
  obtain ⟨tail, htr, -⟩ := generate_stream_shape env backend g queries context conversation
  exact ⟨tail, by rw [htr]; simp [htok, hmod], rfl, rfl⟩

/-- Claim C10 witness at a concrete empty configuration. -/
theorem claim_C10_both_missing_witness :
    ∃ after, (generate_stream { huggingfaceToken := "", llama3ModelId := "" }
        okBackend (Llama3Generator.init "sys") ["q"] ["c"] []).1 =
        Step.yielded missingTokenEvent :: Step.yielded missingModelEvent ::
          Step.constructBackend :: after ∧
      missingTokenEvent.finish_reason = "stop" ∧
      missingModelEvent.finish_reason = "stop" :=
  claim_C10_both_missing _ okBackend _ _ _ _ rfl rfl

/-- Claim C8: credential present but model id absent or empty: the run has
exactly one terminal ("stop") event, and it names the missing model. -/
theorem claim_C8_missing_model (env : Env) (backend : Backend) (g : Llama3Generator)
    (queries context : List String) (conversation : List ConvMessage)
    (htok : env.huggingfaceToken ≠ "") (hmod : env.llama3ModelId = "") :
    stopEvents (generate_stream env backend g queries context conversation).1 =
      [missingModelEvent] := by
  obtain ⟨tail, htr, htail⟩ := generate_stream_shape env backend g queries context conversation
  have hnil : (yieldedEvents tail).filter (fun ev => ev.finish_reason == "stop") = [] :=
    List.filter_eq_nil_iff.mpr (fun ev hev => by rw [htail ev hev]; decide)
  rw [stopEvents, htr, if_neg htok, if_pos hmod, List.nil_append, yieldedEvents_append]
  simp [yieldedEvents, hnil, missingModelEvent]

/-- Claim C8 witness at a concrete missing-model configuration. -/
theorem claim_C8_missing_model_witness :
    stopEvents (generate_stream { huggingfaceToken := "tok", llama3ModelId := "" }
        okBackend (Llama3Generator.init "sys") ["q"] ["c"] []).1 =
      [missingModelEvent] :=
  claim_C8_missing_model _ okBackend _ _ _ _ (by decide) rfl

/-- Claim C1 counterexample: with the credential absent, the event sequence
does not in general consist of exactly one event. At the concrete
configuration where the model id is also empty and the backend happens to
succeed, three events are yielded. -/
theorem claim_C1_counterexample :
    (yieldedEvents (generate_stream { huggingfaceToken := "", llama3ModelId := "" }
        okBackend (Llama3Generator.init "sys") [] [] []).1).length ≠ 1 := by
  decide

/-- Claim C1 (amended): with the credential absent or empty and the model id
present and non-empty, the run has exactly one terminal ("stop") event, it
names the missing credential, and it is yielded before backend construction
or invocation is attempted. -/
theorem claim_C1_missing_token (env : Env) (backend : Backend) (g : Llama3Generator)
    (queries context : List String) (conversation : List ConvMessage)
    (htok : env.huggingfaceToken = "") (hmod : env.llama3ModelId ≠ "") :
    stopEvents (generate_stream env backend g queries context conversation).1 =
      [missingTokenEvent] ∧
    ∃ after, (generate_stream env backend g queries context conversation).1 =
      Step.yielded missingTokenEvent :: Step.constructBackend :: after := by
  obtain ⟨tail, htr, htail⟩ := generate_stream_shape env backend g queries context conversation
  have hnil : (yieldedEvents tail).filter (fun ev => ev.finish_reason == "stop") = [] :=
    List.filter_eq_nil_iff.mpr (fun ev hev => by rw [htail ev hev]; decide)
  constructor
  · rw [stopEvents, htr, if_pos htok, if_neg hmod, List.nil_append, yieldedEvents_append]
    simp [yieldedEvents, hnil, missingTokenEvent]
  · exact ⟨tail, by rw [htr]; simp [htok, hmod]⟩

/-- Claim C1 witness at a concrete missing-token configuration. -/
theorem claim_C1_missing_token_witness :
    stopEvents (generate_stream { huggingfaceToken := "", llama3ModelId := "m" }
        okBackend (Llama3Generator.init "sys") ["q"] ["c"] []).1 =
      [missingTokenEvent] ∧
    ∃ after, (generate_stream { huggingfaceToken := "", llama3ModelId := "m" }
        okBackend (Llama3Generator.init "sys") ["q"] ["c"] []).1 =
      Step.yielded missingTokenEvent :: Step.constructBackend :: after :=
  claim_C1_missing_token _ okBackend _ _ _ _ rfl (by decide)

/-- Claim C6: with both required keys present and a backend whose invocation
returns an answer, the run yields exactly one event carrying the answer with
an empty finish_reason, and the generator then ends normally with no further
terminal event. -/
theorem claim_C6_success (env : Env) (backend : Backend) (g : Llama3Generator)
    (queries context : List String) (conversation : List ConvMessage) (answer : String)
    (htok : env.huggingfaceToken ≠ "") (hmod : env.llama3ModelId ≠ "")
    (hc : backend.construct env.llama3ModelId env.huggingfaceToken = Except.ok ())
    (hi : backend.invoke (g.prepare_messages queries context conversation) = Except.ok answer) :
    yieldedEvents (generate_stream env backend g queries context conversation).1 =
      [{ message := answer, finish_reason := "" }] ∧
    (generate_stream env backend g queries context conversation).2 = Outcome.completed := by
  constructor <;>
    simp [generate_stream, hc, hi, if_neg htok, if_neg hmod, yieldedEvents]

/-- Claim C6 witness: a valid configuration with a backend answering
"Paris". -/
theorem claim_C6_success_witness :
    yieldedEvents (generate_stream { huggingfaceToken := "tok", llama3ModelId := "m" }
        okBackend (Llama3Generator.init "sys") ["q"] ["c"] []).1 =
      [{ message := "Paris", finish_reason := "" }] ∧
    (generate_stream { huggingfaceToken := "tok", llama3ModelId := "m" }
        okBackend (Llama3Generator.init "sys") ["q"] ["c"] []).2 = Outcome.completed :=
  claim_C6_success _ okBackend _ _ _ _ "Paris" (by decide) (by decide) rfl rfl

/-- Claim C7: a backend invocation that raises propagates the exception
unchanged as the outcome of the run, with no retry; the run yields no event
for the failure (only the earlier configuration-check events, none in a
valid configuration), so the sequence aborts via the propagated failure and
not via a "stop" event. -/
theorem claim_C7_propagates (env : Env) (backend : Backend) (g : Llama3Generator)
    (queries context : List String) (conversation : List ConvMessage) (e : BackendError)
    (hc : backend.construct env.llama3ModelId env.huggingfaceToken = Except.ok ())
    (hi : backend.invoke (g.prepare_messages queries context conversation) =
      Except.error e) :
    (generate_stream env backend g queries context conversation).2 = Outcome.raised e ∧
    yieldedEvents (generate_stream env backend g queries context conversation).1 =
      configErrorEvents env := by
  refine ⟨?_, ?_⟩
  · simp [generate_stream, hc, hi]
  · simp only [generate_stream, hc, hi]
    by_cases h1 : env.huggingfaceToken = "" <;> by_cases h2 : env.llama3ModelId = "" <;>
      simp [configErrorEvents, h1, h2, yieldedEvents, yieldedEvents_append]

/-- Claim C7 witness: a valid configuration with a raising backend. -/
theorem claim_C7_propagates_witness :
    (generate_stream { huggingfaceToken := "tok", llama3ModelId := "m" }
        failingBackend (Llama3Generator.init "sys") ["q"] ["c"] []).2 =
      Outcome.raised { details := "inference failure" } ∧
    yieldedEvents (generate_stream { huggingfaceToken := "tok", llama3ModelId := "m" }
        failingBackend (Llama3Generator.init "sys") ["q"] ["c"] []).1 =
      configErrorEvents { huggingfaceToken := "tok", llama3ModelId := "m" } :=
  claim_C7_propagates _ failingBackend _ _ _ _ _ rfl rfl

/-- Stateful embedding of `generate_stream`, threading `self` and the
argument lists exactly as for `prepare_messagesSt`. The method body never
assigns to `self` or to its parameters: it only binds the locals
access_token, model_name, bnb_config, tokenizer, model, pipe, terminators
and messages (the `conversation = \x7b\x7d` rebinding on line 77 concerns only the
Python None default, which the typed embedding has no need of), so the
threaded state comes back unchanged. -/
def generate_streamSt (env : Env) (backend : Backend) (g : Llama3Generator)
    (queries context : List String) (conversation : List ConvMessage) :
    (List Step × Outcome) × Llama3Generator × List String × List String × List ConvMessage :=
  (generate_stream env backend g queries context conversation,
    g, queries, context, conversation)

/-- Claim C9: `prepare_messages` and `generate_stream` mutate neither their
arguments nor the capability metadata: the threaded state comes back equal
to the input state, and in particular name, description, requires_env,
streamable and context_window are unchanged. -/
theorem claim_C9_no_mutation (env : Env) (backend : Backend) (g : Llama3Generator)
    (queries context : List String) (conversation : List ConvMessage) :
    (g.prepare_messagesSt queries context conversation).2 =
      (g, queries, context, conversation) ∧
    (generate_streamSt env backend g queries context conversation).2 =
      (g, queries, context, conversation) ∧
    ((generate_streamSt env backend g queries context conversation).2.1).name = g.name ∧
    ((generate_streamSt env backend g queries context conversation).2.1).description =
      g.description ∧
    ((generate_streamSt env backend g queries context conversation).2.1).requires_env =
      g.requires_env ∧
    ((generate_streamSt env backend g queries context conversation).2.1).streamable =
      g.streamable ∧
    ((generate_streamSt env backend g queries context conversation).2.1).context_window =
      g.context_window :=
  ⟨rfl, rfl, rfl, rfl, rfl, rfl, rfl⟩
